import Mathlib

/-!
Verification of the balance-aggregation core of MyBinanceProxy
(`api/binance-balance.js`).

The JavaScript source is embedded shallowly: each fetcher's parsing and
summation logic becomes a pure Lean function over the already-parsed
response data (network transport, signing and JSON decoding are outside
the embedded fragment).  JavaScript numbers are modelled as rationals
(`ℚ`); the JS truthiness test `if (prices[sym])` on a numeric table entry
is `lookup = some p ∧ p ≠ 0` (both `undefined` and `0` are falsy, NaN is
outside the numeric model).
-/

/-- A price table: the object built by `fetchAllPrices` mapping a trading
pair symbol to its parsed price.  `priceMap[sym]` is `List.lookup`. -/
abbrev PriceTable := List (String × ℚ)

/-- The value `prices[sym]` coerced for use as a number: the stored price, or 0 when
the symbol is absent (mirrors `parseFloat`-parsed entries; an absent key
and a zero price are both falsy in the JS guards). -/
def priceVal (prices : PriceTable) (sym : String) : ℚ :=
  (prices.lookup sym).getD 0

/-- Embedding of `getPriceInUsdt(asset, prices)`
(`api/binance-balance.js` lines 151-177): 1 for USDT itself, then the
direct pair, then the BTC bridge, then the BNB bridge, else 0.  Each JS
guard `if (prices[p])` / `if (prices[p] && prices[q])` is a truthiness
test, i.e. the looked-up value is nonzero. -/
def getPriceInUsdt (asset : String) (prices : PriceTable) : ℚ :=
  if asset = "USDT" then 1
  else if priceVal prices (asset ++ "USDT") ≠ 0 then
    priceVal prices (asset ++ "USDT")
  else if priceVal prices (asset ++ "BTC") ≠ 0 ∧ priceVal prices "BTCUSDT" ≠ 0 then
    priceVal prices (asset ++ "BTC") * priceVal prices "BTCUSDT"
  else if priceVal prices (asset ++ "BNB") ≠ 0 ∧ priceVal prices "BNBUSDT" ≠ 0 then
    priceVal prices (asset ++ "BNB") * priceVal prices "BNBUSDT"
  else 0

/-- One entry of the spot account's `balances` array, after `parseFloat`
of the `free` and `locked` fields. -/
structure SpotBalance where
  asset : String
  free : ℚ
  locked : ℚ
  deriving DecidableEq

/-- Embedding of the summation loop of `fetchSpotTotalUsdt`
(`api/binance-balance.js` lines 203-222): entries with non-positive
`free + locked` are skipped (`continue`), the rest contribute
`total * getPriceInUsdt(asset, prices)`. -/
def fetchSpotTotalUsdt (balances : List SpotBalance) (prices : PriceTable) : ℚ :=
  balances.foldl
    (fun totalUsdt balance =>
      let total := balance.free + balance.locked
      if total ≤ 0 then totalUsdt
      else totalUsdt + total * getPriceInUsdt balance.asset prices)
    0

/-- The `isolated` field of a futures position as delivered by JSON: the
code accepts a boolean or any other value coerced through `String(...)`.
`missing` stands for an absent field (`String(undefined) = "undefined"`). -/
inductive IsoFlag where
  | bool (b : Bool)
  | str (s : String)
  | missing
  deriving DecidableEq

/-- The JS guard `position.isolated === true || String(position.isolated)
=== 'true'` (line 262). -/
def isoTruthy : IsoFlag → Bool
  | .bool b => b
  | .str s => s = "true"
  | .missing => false

/-- One entry of the derivatives account's `positions` array; `symbol`
stands for the response fields the loop never reads. -/
structure FuturesPosition where
  symbol : String
  isolated : IsoFlag
  isolatedWallet : ℚ
  unrealizedProfit : ℚ
  deriving DecidableEq

/-- The parsed `/fapi/v2/account` response body. -/
structure FuturesAccount where
  totalMarginBalance : ℚ
  positions : List FuturesPosition
  deriving DecidableEq

/-- The `{cross, isolated, total}` object returned by
`fetchFuturesBalance`. -/
structure FuturesResult where
  cross : ℚ
  isolated : ℚ
  total : ℚ
  deriving DecidableEq

/-- Embedding of the parsing part of `fetchFuturesBalance`
(`api/binance-balance.js` lines 253-273): cross is the parsed
`totalMarginBalance`, isolated is accumulated over positions passing the
isolated-mode guard, total is their sum. -/
def fetchFuturesBalance (data : FuturesAccount) : FuturesResult :=
  let cross := data.totalMarginBalance
  let isolated := data.positions.foldl
    (fun isolated position =>
      if isoTruthy position.isolated then
        isolated + (position.isolatedWallet + position.unrealizedProfit)
      else isolated)
    0
  { cross := cross, isolated := isolated, total := cross + isolated }

/-- One entry of the unified wallet response
(`/sapi/v1/asset/wallet/balance`): wallet-name label, balance already in
USDT (after `parseFloat(wallet.balance || 0)`), and the activation flag
(truthiness of `wallet.activate`). -/
structure WalletEntry where
  walletName : String
  balance : ℚ
  activate : Bool
  deriving DecidableEq

/-- The mutable locals of the handler's wallet loop
(`api/binance-balance.js` lines 24-48). -/
structure UniState where
  spotUsdt : ℚ
  futuresTotalUsdt : ℚ
  tradingBotUsdt : ℚ
  totalUsdt : ℚ
  deriving DecidableEq

/-- One iteration of the handler's wallet loop (lines 30-48): bucket the
balance by wallet-name literal, and add activated positive balances into
the running grand total. -/
def uniStep (s : UniState) (w : WalletEntry) : UniState :=
  let balance := w.balance
  let walletName := w.walletName
  let s1 :=
    if walletName = "Spot" then
      { s with spotUsdt := balance }
    else if walletName = "USDⓈ-M Futures" ∨ walletName = "USDT-M Futures" then
      { s with futuresTotalUsdt := balance }
    else if walletName = "Trading Bots" then
      { s with tradingBotUsdt := balance }
    else s
  if w.activate ∧ 0 < balance then
    { s1 with totalUsdt := s1.totalUsdt + balance }
  else s1

/-- Outcome of one `Promise.allSettled` slot holding a number. -/
inductive SettledQ where
  | fulfilled (v : ℚ)
  | rejected
  deriving DecidableEq

/-- Outcome of the `Promise.allSettled` slot holding the futures result. -/
inductive SettledFut where
  | fulfilled (v : FuturesResult)
  | rejected
  deriving DecidableEq

/-- The 200-response body of the unified-first handler (lines 67-75). -/
structure HandlerResponse where
  spotUsdt : ℚ
  futuresCrossUsdt : ℚ
  futuresIsolatedUsdt : ℚ
  futuresTotalUsdt : ℚ
  tradingBotUsdt : ℚ
  tradingBotSapiUsdt : ℚ
  totalUsdt : ℚ
  deriving DecidableEq

/-- Embedding of the success path of the unified-first `handler`
(`api/binance-balance.js` lines 21-75).  `walletBalances` is what
`fetchWalletBalances` returned (always an array: it maps every failure to
`[]`); `spotResult` and `futuresResult` are the settled outcomes of the
fallback's `Promise.allSettled` pair (lines 55-58), consulted only when
`walletBalances` is empty.  The response reuses `futuresTotalUsdt` for
`futuresCrossUsdt` and hard-codes `futuresIsolatedUsdt = 0` and
`tradingBotSapiUsdt = 0` (lines 69-73). -/
def handler (walletBalances : List WalletEntry)
    (spotResult : SettledQ) (futuresResult : SettledFut) : HandlerResponse :=
  let s := walletBalances.foldl uniStep ⟨0, 0, 0, 0⟩
  let st :=
    if walletBalances.isEmpty then
      let spotUsdt :=
        match spotResult with
        | .fulfilled v => v
        | .rejected => s.spotUsdt
      let futures :=
        match futuresResult with
        | .fulfilled f => f
        | .rejected => ⟨0, 0, 0⟩
      let futuresTotalUsdt :=
        if futures.total ≠ 0 then futures.total else s.futuresTotalUsdt
      let totalUsdt := spotUsdt + futuresTotalUsdt + s.tradingBotUsdt
      UniState.mk spotUsdt futuresTotalUsdt s.tradingBotUsdt totalUsdt
    else s
  { spotUsdt := st.spotUsdt
    futuresCrossUsdt := st.futuresTotalUsdt
    futuresIsolatedUsdt := 0
    futuresTotalUsdt := st.futuresTotalUsdt
    tradingBotUsdt := st.tradingBotUsdt
    tradingBotSapiUsdt := 0
    totalUsdt := st.totalUsdt }

/-- The sub-fetches the handler can issue, for tracking which network
fetchers an execution invokes. -/
inductive Fetcher where
  | unified
  | prices
  | spot
  | futures
  | bot
  | spotAlgo
  | futuresAlgo
  deriving DecidableEq

/-- The fetcher invocations of the unified-first `handler` as a function
of the unified fetch's result: the fallback block (lines 50-65) runs
`fetchAllPrices` and then `Promise.allSettled([fetchSpotTotalUsdt,
fetchFuturesBalance])` only when the unified result is empty; no other
fetcher is ever called there (the code comments that the fallback cannot
reach the trading-bot account). -/
def handlerCalls (walletBalances : List WalletEntry) : List Fetcher :=
  if walletBalances.isEmpty then
    [Fetcher.unified, Fetcher.prices, Fetcher.spot, Fetcher.futures]
  else
    [Fetcher.unified]

/-- The numeric fields of the unified-first handler's catch-block 500
response body (`api/binance-balance.js` lines 79-85), beside the `error`
string field. -/
def errorResponse : List (String × ℚ) :=
  [("totalUsdt", 0), ("spotUsdt", 0), ("futuresTotalUsdt", 0), ("tradingBotUsdt", 0)]

/-- The HTTP status of the catch-block response (line 79). -/
def errorResponseStatus : Nat := 500

/-- The 200-response body of the standalone per-account handler variant
(`src/unnamed/part_002` lines 42-49). -/
structure Part2Response where
  spotUsdt : ℚ
  futuresCrossUsdt : ℚ
  futuresIsolatedUsdt : ℚ
  futuresTotalUsdt : ℚ
  tradingBotSapiUsdt : ℚ
  totalUsdt : ℚ
  deriving DecidableEq

/-- Embedding of the success path of the per-account handler variant
(`src/unnamed/part_002` lines 28-49): the three settled outcomes are
extracted with zero defaults and summed. -/
def part2Handler (spotResult : SettledQ) (futuresResult : SettledFut)
    (tradingBotResult : SettledQ) : Part2Response :=
  let spot :=
    match spotResult with
    | .fulfilled v => v
    | .rejected => 0
  let futures :=
    match futuresResult with
    | .fulfilled f => f
    | .rejected => ⟨0, 0, 0⟩
  let tradingBotSapi :=
    match tradingBotResult with
    | .fulfilled v => v
    | .rejected => 0
  let total := spot + futures.total + tradingBotSapi
  { spotUsdt := spot
    futuresCrossUsdt := futures.cross
    futuresIsolatedUsdt := futures.isolated
    futuresTotalUsdt := futures.total
    tradingBotSapiUsdt := tradingBotSapi
    totalUsdt := total }

/-- Embedding of `fetchTradingBotBalance` (`src/unnamed/part_002` lines
236-251, identical in `api/binance-balance.js` lines 291-306): the sum of
the spot-algo and futures-algo sub-balances. -/
def fetchTradingBotBalance (spotBotBalance futuresBotBalance : ℚ) : ℚ :=
  spotBotBalance + futuresBotBalance

/-- The fetcher invocations of the per-account handler variant
(`src/unnamed/part_002`): prices first, then the `Promise.allSettled`
triple, with `fetchTradingBotBalance` invoking both algo sub-fetchers. -/
def part2HandlerCalls : List Fetcher :=
  [Fetcher.prices, Fetcher.spot, Fetcher.futures, Fetcher.bot,
   Fetcher.spotAlgo, Fetcher.futuresAlgo]

section FoldLemmas

variable {α : Type}

/-- A conditional accumulation loop computes the sum of the selected
contributions. -/
theorem foldl_ite_add_eq_sum (P : α → Bool) (g : α → ℚ) (l : List α) (init : ℚ) :
    l.foldl (fun acc b => if P b then acc + g b else acc) init
      = init + ((l.filter P).map g).sum := by
  induction l generalizing init with
  | nil => simp
  | cons hd tl ih =>
    by_cases h : P hd
    · simp [List.foldl_cons, List.filter_cons, h, ih, add_assoc]
    · simp [List.foldl_cons, List.filter_cons, h, ih]

/-- The spot summation loop with an arbitrary accumulator start. -/
theorem spot_foldl_eq_sum (prices : PriceTable) (l : List SpotBalance) (init : ℚ) :
    l.foldl
        (fun totalUsdt balance =>
          if balance.free + balance.locked ≤ 0 then totalUsdt
          else totalUsdt + (balance.free + balance.locked) * getPriceInUsdt balance.asset prices)
        init
      = init + ((l.filter fun b => decide (0 < b.free + b.locked)).map
          (fun b => (b.free + b.locked) * getPriceInUsdt b.asset prices)).sum := by
  induction l generalizing init with
  | nil => simp
  | cons hd tl ih =>
    by_cases h : hd.free + hd.locked ≤ 0
    · simp [List.foldl_cons, List.filter_cons, not_lt.mpr h, ih]
    · simp [List.foldl_cons, List.filter_cons, h, lt_of_not_le h, ih, add_assoc]

/-- The isolated-mode guard is exactly "boolean `true` or string
`"true"`". -/
theorem isoTruthy_eq_decide (f : IsoFlag) :
    isoTruthy f = decide (f = IsoFlag.bool true ∨ f = IsoFlag.str "true") := by
  cases f with
  | bool b => cases b <;> simp [isoTruthy]
  | str s => simp [isoTruthy]
  | missing => simp [isoTruthy]

/-- Only the grand-total accumulator of the wallet loop changes with the
activation guard; the bucketing branch never touches it. -/
theorem uniStep_totalUsdt (s : UniState) (w : WalletEntry) :
    (uniStep s w).totalUsdt =
      if w.activate ∧ 0 < w.balance then s.totalUsdt + w.balance else s.totalUsdt := by
  simp only [uniStep]
  split_ifs <;> rfl

/-- The wallet loop's grand total is the sum of activated positive
balances. -/
theorem foldl_uniStep_totalUsdt (l : List WalletEntry) (init : UniState) :
    (l.foldl uniStep init).totalUsdt =
      init.totalUsdt
        + ((l.filter fun w => w.activate && decide (0 < w.balance)).map
            (fun w => w.balance)).sum := by
  induction l generalizing init with
  | nil => simp
  | cons hd tl ih =>
    rw [List.foldl_cons, ih, uniStep_totalUsdt]
    by_cases h : hd.activate ∧ 0 < hd.balance
    · simp [List.filter_cons, h, add_assoc]
    · have : (hd.activate && decide (0 < hd.balance)) = false := by
        rcases Decidable.not_and_iff_or_not.mp h with h1 | h1 <;> simp [h1]
      simp [List.filter_cons, h, this]

end FoldLemmas

/-- Claim C2: `getPriceInUsdt` returns 1 for the quote currency USDT;
otherwise it tries, in order, the direct pair, the BTC bridge (both legs
required), then the BNB bridge (both legs required), and returns 0 when
no path resolves.  With only a direct pair present it returns exactly
that pair's stored price; with only one bridge path present it returns
the product of the two legs; with no path it returns 0. -/
theorem C2_price_resolution (a : String) (prices : PriceTable) (ha : a ≠ "USDT") :
    (∀ ps : PriceTable, getPriceInUsdt "USDT" ps = 1)
    ∧ (∀ p, prices.lookup (a ++ "USDT") = some p → p ≠ 0 →
        getPriceInUsdt a prices = p)
    ∧ (∀ p, prices.lookup (a ++ "USDT") = some p →
        prices.lookup (a ++ "BTC") = none → prices.lookup (a ++ "BNB") = none →
        getPriceInUsdt a prices = p)
    ∧ (∀ p q, prices.lookup (a ++ "USDT") = none →
        prices.lookup (a ++ "BTC") = some p → p ≠ 0 →
        prices.lookup "BTCUSDT" = some q → q ≠ 0 →
        getPriceInUsdt a prices = p * q)
    ∧ (∀ p q, prices.lookup (a ++ "USDT") = none →
        prices.lookup (a ++ "BTC") = some p → prices.lookup "BTCUSDT" = some q →
        prices.lookup (a ++ "BNB") = none →
        getPriceInUsdt a prices = p * q)
    ∧ (∀ p q, prices.lookup (a ++ "USDT") = none →
        prices.lookup (a ++ "BTC") = none →
        prices.lookup (a ++ "BNB") = some p → prices.lookup "BNBUSDT" = some q →
        getPriceInUsdt a prices = p * q)
    ∧ (prices.lookup (a ++ "USDT") = none →
        prices.lookup (a ++ "BTC") = none → prices.lookup (a ++ "BNB") = none →
        getPriceInUsdt a prices = 0) := by
  refine ⟨fun ps => by simp [getPriceInUsdt], ?_, ?_, ?_, ?_, ?_, ?_⟩
  · intro p h hp
    simp [getPriceInUsdt, priceVal, ha, h, hp]
  · intro p h hBTC hBNB
    by_cases hp : p = 0
    · simp [getPriceInUsdt, priceVal, ha, h, hBTC, hBNB, hp]
    · simp [getPriceInUsdt, priceVal, ha, h, hp]
  · intro p q h hBTC hp hQ hq
    simp [getPriceInUsdt, priceVal, ha, h, hBTC, hp, hQ, hq]
  · intro p q h hBTC hQ hBNB
    by_cases hp : p = 0
    · simp [getPriceInUsdt, priceVal, ha, h, hBTC, hQ, hBNB, hp]
    · by_cases hq : q = 0
      · simp [getPriceInUsdt, priceVal, ha, h, hBTC, hQ, hBNB, hp, hq]
      · simp [getPriceInUsdt, priceVal, ha, h, hBTC, hQ, hp, hq]
  · intro p q h hBTC hBNB hQ
    by_cases hp : p = 0
    · simp [getPriceInUsdt, priceVal, ha, h, hBTC, hBNB, hQ, hp]
    · by_cases hq : q = 0
      · simp [getPriceInUsdt, priceVal, ha, h, hBTC, hBNB, hQ, hp, hq]
      · simp [getPriceInUsdt, priceVal, ha, h, hBTC, hBNB, hQ, hp, hq]
  · intro h hBTC hBNB
    simp [getPriceInUsdt, priceVal, ha, h, hBTC, hBNB]

/-- Witness for C2 at concrete tables: quote asset, direct-only,
BTC-bridge-only, and empty tables. -/
theorem C2_price_resolution_witness :
    getPriceInUsdt "USDT" [] = 1
    ∧ getPriceInUsdt "ETH" [("ETHUSDT", (3000 : ℚ))] = 3000
    ∧ getPriceInUsdt "XYZ" [("XYZBTC", (2 : ℚ)), ("BTCUSDT", (50000 : ℚ))] = 2 * 50000
    ∧ getPriceInUsdt "XYZ" [] = 0 := by
  refine ⟨(C2_price_resolution "ETH" [] (by simp)).1 [], ?_, ?_, ?_⟩
  · exact (C2_price_resolution "ETH" [("ETHUSDT", (3000 : ℚ))] (by simp)).2.1
      3000 rfl (by norm_num)
  · have := (C2_price_resolution "XYZ" [("XYZBTC", (2 : ℚ)), ("BTCUSDT", (50000 : ℚ))]
      (by simp)).2.2.2.1 2 50000 rfl rfl (by norm_num) rfl (by norm_num)
    simpa using this
  · exact (C2_price_resolution "XYZ" [] (by simp)).2.2.2.2.2.2 rfl rfl rfl

/-- Claim C9: a stored price of 0 behaves like an absent entry in
`getPriceInUsdt`: a zero-priced direct pair is skipped in favour of a
nonzero BTC or BNB bridge, and a zero-priced bridge leg disqualifies that
bridge path. -/
theorem C9_zero_price_like_absent (a : String) (prices : PriceTable) (ha : a ≠ "USDT") :
    (∀ p q, prices.lookup (a ++ "USDT") = some 0 →
        prices.lookup (a ++ "BTC") = some p → p ≠ 0 →
        prices.lookup "BTCUSDT" = some q → q ≠ 0 →
        getPriceInUsdt a prices = p * q)
    ∧ (∀ p q, prices.lookup (a ++ "USDT") = some 0 →
        prices.lookup (a ++ "BTC") = none →
        prices.lookup (a ++ "BNB") = some p → p ≠ 0 →
        prices.lookup "BNBUSDT" = some q → q ≠ 0 →
        getPriceInUsdt a prices = p * q)
    ∧ (∀ p q, prices.lookup (a ++ "USDT") = none →
        prices.lookup (a ++ "BTC") = some 0 →
        prices.lookup (a ++ "BNB") = some p → p ≠ 0 →
        prices.lookup "BNBUSDT" = some q → q ≠ 0 →
        getPriceInUsdt a prices = p * q) := by
  refine ⟨?_, ?_, ?_⟩
  · intro p q h hBTC hp hQ hq
    simp [getPriceInUsdt, priceVal, ha, h, hBTC, hp, hQ, hq]
  · intro p q h hBTC hBNB hp hQ hq
    simp [getPriceInUsdt, priceVal, ha, h, hBTC, hBNB, hp, hQ, hq]
  · intro p q h hBTC hBNB hp hQ hq
    simp [getPriceInUsdt, priceVal, ha, h, hBTC, hBNB, hp, hQ, hq]

/-- Witness for C9: a zero-priced direct pair loses to a nonzero BTC
bridge, and a zero-priced BTC leg loses to a nonzero BNB bridge. -/
theorem C9_zero_price_like_absent_witness :
    getPriceInUsdt "ETH" [("ETHUSDT", (0 : ℚ)), ("ETHBTC", (2 : ℚ)), ("BTCUSDT", (50000 : ℚ))]
      = 2 * 50000
    ∧ getPriceInUsdt "ETH" [("ETHBTC", (0 : ℚ)), ("ETHBNB", (5 : ℚ)), ("BNBUSDT", (600 : ℚ))]
      = 5 * 600 := by
  constructor
  · exact (C9_zero_price_like_absent "ETH"
      [("ETHUSDT", (0 : ℚ)), ("ETHBTC", (2 : ℚ)), ("BTCUSDT", (50000 : ℚ))] (by simp)).1
      2 50000 rfl rfl (by norm_num) rfl (by norm_num)
  · exact (C9_zero_price_like_absent "ETH"
      [("ETHBTC", (0 : ℚ)), ("ETHBNB", (5 : ℚ)), ("BNBUSDT", (600 : ℚ))] (by simp)).2.2
      5 600 rfl rfl rfl (by norm_num) rfl (by norm_num)

/-- Claim C3: the spot total is the sum of `(free + locked) *
getPriceInUsdt(asset)` over exactly the entries with strictly positive
`free + locked`; zero or negative totals are excluded entirely. -/
theorem C3_spot_total_sum (balances : List SpotBalance) (prices : PriceTable) :
    fetchSpotTotalUsdt balances prices =
      ((balances.filter fun b => decide (0 < b.free + b.locked)).map
        (fun b => (b.free + b.locked) * getPriceInUsdt b.asset prices)).sum := by
  unfold fetchSpotTotalUsdt
  rw [spot_foldl_eq_sum prices balances 0, zero_add]

/-- Claim C4: the isolated futures total is the sum of `isolatedWallet +
unrealizedProfit` over the positions whose isolated flag is boolean
`true` or string `"true"` (and no other flag value), regardless of the
other position fields; cross is the parsed `totalMarginBalance`; the
futures total is cross plus isolated. -/
theorem C4_futures_balance_parse (data : FuturesAccount) :
    (fetchFuturesBalance data).isolated =
      ((data.positions.filter fun p =>
          decide (p.isolated = IsoFlag.bool true ∨ p.isolated = IsoFlag.str "true")).map
        (fun p => p.isolatedWallet + p.unrealizedProfit)).sum
    ∧ (fetchFuturesBalance data).cross = data.totalMarginBalance
    ∧ (fetchFuturesBalance data).total =
        (fetchFuturesBalance data).cross + (fetchFuturesBalance data).isolated := by
  refine ⟨?_, rfl, rfl⟩
  show data.positions.foldl
      (fun isolated position =>
        if isoTruthy position.isolated then
          isolated + (position.isolatedWallet + position.unrealizedProfit)
        else isolated) 0 = _
  rw [foldl_ite_add_eq_sum (fun p => isoTruthy p.isolated)
    (fun p => p.isolatedWallet + p.unrealizedProfit) data.positions 0, zero_add]
  have hf : data.positions.filter (fun p => isoTruthy p.isolated)
      = data.positions.filter
          (fun p => decide (p.isolated = IsoFlag.bool true ∨ p.isolated = IsoFlag.str "true")) :=
    List.filter_congr (fun p _ => isoTruthy_eq_decide p.isolated)
  rw [hf]

/-- Counterexample to claim C1: a unified wallet result with a single
non-activated "Spot" entry of balance 100 produces a 200 response whose
grand total (0, the sum of activated positive balances) differs from the
sum of the category fields reported in the response (100). -/
theorem C1_counterexample :
    (handler [⟨"Spot", 100, false⟩] SettledQ.rejected SettledFut.rejected).totalUsdt ≠
      (handler [⟨"Spot", 100, false⟩] SettledQ.rejected SettledFut.rejected).spotUsdt
        + (handler [⟨"Spot", 100, false⟩] SettledQ.rejected SettledFut.rejected).futuresTotalUsdt
        + (handler [⟨"Spot", 100, false⟩] SettledQ.rejected SettledFut.rejected).futuresIsolatedUsdt
        + (handler [⟨"Spot", 100, false⟩] SettledQ.rejected SettledFut.rejected).tradingBotUsdt
        + (handler [⟨"Spot", 100, false⟩] SettledQ.rejected SettledFut.rejected).tradingBotSapiUsdt := by
  simp [handler, uniStep]

/-- Claim C1 as amended: in the per-account fallback strategy (empty
unified result) the grand total equals the sum of the category fields,
failed categories contributing zero; in the unified-first strategy the
grand total is the sum of activated positive wallet balances, which is
computed independently of the category fields and need not equal their
sum. -/
theorem C1_grand_total (wb : List WalletEntry) (s : SettledQ) (f : SettledFut) :
    (wb = [] →
      (handler wb s f).totalUsdt =
        (handler wb s f).spotUsdt + (handler wb s f).futuresTotalUsdt
          + (handler wb s f).tradingBotUsdt)
    ∧ (wb ≠ [] →
      (handler wb s f).totalUsdt =
        ((wb.filter fun w => w.activate && decide (0 < w.balance)).map
          (fun w => w.balance)).sum) := by
  constructor
  · rintro rfl
    cases s <;> cases f <;> simp [handler]
  · intro h
    have he : wb.isEmpty = false := by simpa [List.isEmpty_iff] using h
    simp only [handler, he, Bool.false_eq_true, if_false]
    simpa using foldl_uniStep_totalUsdt wb ⟨0, 0, 0, 0⟩

/-- Witness for C1 at a concrete input on each strategy branch. -/
theorem C1_grand_total_witness :
    ((handler [] (SettledQ.fulfilled 7) (SettledFut.fulfilled ⟨1, 2, 3⟩)).totalUsdt =
      (handler [] (SettledQ.fulfilled 7) (SettledFut.fulfilled ⟨1, 2, 3⟩)).spotUsdt
        + (handler [] (SettledQ.fulfilled 7) (SettledFut.fulfilled ⟨1, 2, 3⟩)).futuresTotalUsdt
        + (handler [] (SettledQ.fulfilled 7) (SettledFut.fulfilled ⟨1, 2, 3⟩)).tradingBotUsdt)
    ∧ ((handler [⟨"Spot", 100, true⟩] SettledQ.rejected SettledFut.rejected).totalUsdt =
        ((([⟨"Spot", 100, true⟩] : List WalletEntry).filter
            fun w => w.activate && decide (0 < w.balance)).map (fun w => w.balance)).sum) :=
  ⟨(C1_grand_total [] (SettledQ.fulfilled 7) (SettledFut.fulfilled ⟨1, 2, 3⟩)).1 rfl,
   (C1_grand_total [⟨"Spot", 100, true⟩] SettledQ.rejected SettledFut.rejected).2 (by simp)⟩

/-- Claim C5: when the unified wallet fetch returns a non-empty array,
the response does not depend on the fallback fetch outcomes (the pure
counterpart of "the per-account fetchers are never invoked", which the
call-trace model also records), every category total comes from the
wallet-loop fold over the unified entries, and the isolated-futures field
is 0. -/
theorem C5_unified_first (wb : List WalletEntry) (s s' : SettledQ) (f f' : SettledFut)
    (h : wb ≠ []) :
    handler wb s f = handler wb s' f'
    ∧ handlerCalls wb = [Fetcher.unified]
    ∧ (handler wb s f).futuresIsolatedUsdt = 0
    ∧ (handler wb s f).spotUsdt = (wb.foldl uniStep ⟨0, 0, 0, 0⟩).spotUsdt
    ∧ (handler wb s f).futuresTotalUsdt = (wb.foldl uniStep ⟨0, 0, 0, 0⟩).futuresTotalUsdt
    ∧ (handler wb s f).tradingBotUsdt = (wb.foldl uniStep ⟨0, 0, 0, 0⟩).tradingBotUsdt
    ∧ (handler wb s f).totalUsdt = (wb.foldl uniStep ⟨0, 0, 0, 0⟩).totalUsdt := by
  have he : wb.isEmpty = false := by simpa [List.isEmpty_iff] using h
  refine ⟨?_, ?_, ?_, ?_, ?_, ?_, ?_⟩ <;>
    simp [handler, handlerCalls, he]

/-- Witness for C5: with one activated "Spot" entry the response ignores
the fallback outcomes and reports 0 isolated futures. -/
theorem C5_unified_first_witness :
    handler [⟨"Spot", 1, true⟩] (SettledQ.fulfilled 5) (SettledFut.fulfilled ⟨1, 1, 2⟩)
      = handler [⟨"Spot", 1, true⟩] SettledQ.rejected SettledFut.rejected
    ∧ (handler [⟨"Spot", 1, true⟩] (SettledQ.fulfilled 5)
        (SettledFut.fulfilled ⟨1, 1, 2⟩)).futuresIsolatedUsdt = 0 :=
  ⟨(C5_unified_first [⟨"Spot", 1, true⟩] (SettledQ.fulfilled 5) SettledQ.rejected
      (SettledFut.fulfilled ⟨1, 1, 2⟩) SettledFut.rejected (by simp)).1,
   (C5_unified_first [⟨"Spot", 1, true⟩] (SettledQ.fulfilled 5) SettledQ.rejected
      (SettledFut.fulfilled ⟨1, 1, 2⟩) SettledFut.rejected (by simp)).2.2.1⟩

/-- Claim C10: every 200 response of the unified-first handler reports
`futuresIsolatedUsdt = 0` and `futuresCrossUsdt = futuresTotalUsdt`, and
in the fallback strategy `tradingBotUsdt` is always 0 (the bot fetcher is
not invoked there, as the call-trace model also records). -/
theorem C10_response_invariants (wb : List WalletEntry) (s : SettledQ) (f : SettledFut) :
    (handler wb s f).futuresIsolatedUsdt = 0
    ∧ (handler wb s f).futuresCrossUsdt = (handler wb s f).futuresTotalUsdt
    ∧ (wb = [] →
        (handler wb s f).tradingBotUsdt = 0 ∧ Fetcher.bot ∉ handlerCalls wb) := by
  refine ⟨rfl, rfl, ?_⟩
  rintro rfl
  exact ⟨by cases s <;> cases f <;> simp [handler], by simp [handlerCalls]⟩

/-- Witness for C10 on the fallback branch, with a fulfilled futures
result carrying a nonzero isolated component. -/
theorem C10_response_invariants_witness :
    (handler [] SettledQ.rejected (SettledFut.fulfilled ⟨10, 5, 15⟩)).futuresIsolatedUsdt = 0
    ∧ (handler [] SettledQ.rejected (SettledFut.fulfilled ⟨10, 5, 15⟩)).tradingBotUsdt = 0 :=
  ⟨(C10_response_invariants [] SettledQ.rejected (SettledFut.fulfilled ⟨10, 5, 15⟩)).1,
   ((C10_response_invariants [] SettledQ.rejected (SettledFut.fulfilled ⟨10, 5, 15⟩)).2.2 rfl).1⟩

/-- Counterexample to claim C6: in the unified-first handler, an empty
unified result triggers the fallback, and the fallback's call trace does
not contain the bot-balance fetcher (the code comments that the fallback
cannot reach the trading-bot account). -/
theorem C6_counterexample : Fetcher.bot ∉ handlerCalls [] := by
  simp [handlerCalls]

/-- Claim C6 as amended: when the unified fetch returns empty, the
unified-first handler invokes only the spot and derivatives fetchers
(after the price fetch) through an isolation join — each category field
depends only on its own fetch outcome and missing results default to
zero — and never the bot-balance fetcher.  The standalone per-account
variant invokes all three, the bot fetch reaching both algo
sub-fetchers and summing them, with the same isolation and zero
defaults. -/
theorem C6_fallback_fetches :
    handlerCalls [] = [Fetcher.unified, Fetcher.prices, Fetcher.spot, Fetcher.futures]
    ∧ Fetcher.bot ∉ handlerCalls []
    ∧ (∀ (s : SettledQ) (f f' : SettledFut),
        (handler [] s f).spotUsdt = (handler [] s f').spotUsdt)
    ∧ (∀ (s s' : SettledQ) (f : SettledFut),
        (handler [] s f).futuresTotalUsdt = (handler [] s' f).futuresTotalUsdt)
    ∧ handler [] SettledQ.rejected SettledFut.rejected =
        { spotUsdt := 0, futuresCrossUsdt := 0, futuresIsolatedUsdt := 0,
          futuresTotalUsdt := 0, tradingBotUsdt := 0, tradingBotSapiUsdt := 0,
          totalUsdt := 0 }
    ∧ part2HandlerCalls = [Fetcher.prices, Fetcher.spot, Fetcher.futures, Fetcher.bot,
        Fetcher.spotAlgo, Fetcher.futuresAlgo]
    ∧ (∀ sb fb : ℚ, fetchTradingBotBalance sb fb = sb + fb)
    ∧ (∀ (s : SettledQ) (f f' : SettledFut) (b b' : SettledQ),
        (part2Handler s f b).spotUsdt = (part2Handler s f' b').spotUsdt)
    ∧ (∀ (s s' : SettledQ) (f : SettledFut) (b b' : SettledQ),
        (part2Handler s f b).futuresTotalUsdt = (part2Handler s' f b').futuresTotalUsdt
          ∧ (part2Handler s f b).futuresCrossUsdt = (part2Handler s' f b').futuresCrossUsdt
          ∧ (part2Handler s f b).futuresIsolatedUsdt = (part2Handler s' f b').futuresIsolatedUsdt)
    ∧ (∀ (s s' : SettledQ) (f f' : SettledFut) (b : SettledQ),
        (part2Handler s f b).tradingBotSapiUsdt = (part2Handler s' f' b).tradingBotSapiUsdt)
    ∧ part2Handler SettledQ.rejected SettledFut.rejected SettledQ.rejected =
        { spotUsdt := 0, futuresCrossUsdt := 0, futuresIsolatedUsdt := 0,
          futuresTotalUsdt := 0, tradingBotSapiUsdt := 0, totalUsdt := 0 } := by
  refine ⟨rfl, by simp [handlerCalls], ?_, ?_, by simp [handler], rfl,
    fun sb fb => rfl, ?_, ?_, ?_, by simp [part2Handler]⟩
  · intro s f f'
    cases s <;> simp [handler]
  · intro s s' f
    cases s <;> cases s' <;> simp [handler]
  · intro s f f' b b'
    cases s <;> simp [part2Handler]
  · intro s s' f b b'
    cases f <;> simp [part2Handler]
  · intro s s' f f' b
    cases b <;> simp [part2Handler]

/-- Counterexample to claim C7: the unified-first handler's catch-block
500 body does not contain a `futuresCrossUsdt` key (nor
`futuresIsolatedUsdt`); its numeric keys are exactly `totalUsdt`,
`spotUsdt`, `futuresTotalUsdt`, `tradingBotUsdt`. -/
theorem C7_counterexample :
    "futuresCrossUsdt" ∉ errorResponse.map Prod.fst
      ∧ "futuresIsolatedUsdt" ∉ errorResponse.map Prod.fst := by
  simp [errorResponse]

/-- Claim C7 as amended: every unexpected exception reaching the handler
boundary yields a 500 response whose JSON body carries the numeric keys
`spotUsdt`, `futuresTotalUsdt`, the bot-balance key `tradingBotUsdt`, and
`totalUsdt`, all zeroed (every numeric field present is zero); the keys
`futuresCrossUsdt` and `futuresIsolatedUsdt` are not included. -/
theorem C7_error_response :
    errorResponseStatus = 500
    ∧ ("totalUsdt", (0 : ℚ)) ∈ errorResponse
    ∧ ("spotUsdt", (0 : ℚ)) ∈ errorResponse
    ∧ ("futuresTotalUsdt", (0 : ℚ)) ∈ errorResponse
    ∧ ("tradingBotUsdt", (0 : ℚ)) ∈ errorResponse
    ∧ (∀ kv ∈ errorResponse, kv.2 = 0)
    ∧ "futuresCrossUsdt" ∉ errorResponse.map Prod.fst
    ∧ "futuresIsolatedUsdt" ∉ errorResponse.map Prod.fst := by
  refine ⟨rfl, by simp [errorResponse], by simp [errorResponse], by simp [errorResponse],
    by simp [errorResponse], ?_, by simp [errorResponse], by simp [errorResponse]⟩
  intro kv hkv
  simp only [errorResponse, List.mem_cons, List.not_mem_nil, or_false] at hkv
  rcases hkv with rfl | rfl | rfl | rfl <;> rfl

/-- Counterexample to claim C8: appending an activated wallet entry with
negative balance (-5) to a unified result leaves the grand total
unchanged at 10 instead of reducing it — negative balances are excluded
from `totalUsdt` by the `balance > 0` guard. -/
theorem C8_counterexample :
    (handler [⟨"Trading Bots", 10, true⟩, ⟨"Spot", -5, true⟩]
        SettledQ.rejected SettledFut.rejected).totalUsdt =
      (handler [⟨"Trading Bots", 10, true⟩]
        SettledQ.rejected SettledFut.rejected).totalUsdt
    ∧ (handler [⟨"Trading Bots", 10, true⟩, ⟨"Spot", -5, true⟩]
        SettledQ.rejected SettledFut.rejected).totalUsdt = 10 := by
  constructor <;> · simp [handler, uniStep]; norm_num

/-- Claim C8 as amended: negative unrealized profit on an isolated
position enters the isolated sum unclamped and hence reduces it, while in
the unified strategy an activated wallet entry with non-positive balance
is excluded from the grand total (it contributes zero rather than
reducing `totalUsdt`). -/
theorem C8_negative_values :
    (∀ (data : FuturesAccount) (p : FuturesPosition), isoTruthy p.isolated = true →
      (fetchFuturesBalance { data with positions := data.positions ++ [p] }).isolated =
        (fetchFuturesBalance data).isolated + (p.isolatedWallet + p.unrealizedProfit))
    ∧ (∀ (data : FuturesAccount) (p : FuturesPosition), isoTruthy p.isolated = true →
        p.unrealizedProfit < 0 →
      (fetchFuturesBalance { data with positions := data.positions ++ [p] }).isolated <
        (fetchFuturesBalance data).isolated + p.isolatedWallet)
    ∧ (∀ (wb : List WalletEntry) (w : WalletEntry) (s : SettledQ) (f : SettledFut),
        wb ≠ [] → w.balance ≤ 0 →
      (handler (wb ++ [w]) s f).totalUsdt = (handler wb s f).totalUsdt) := by
  have hiso : ∀ (data : FuturesAccount) (p : FuturesPosition), isoTruthy p.isolated = true →
      (fetchFuturesBalance { data with positions := data.positions ++ [p] }).isolated =
        (fetchFuturesBalance data).isolated + (p.isolatedWallet + p.unrealizedProfit) := by
    intro data p hp
    simp only [fetchFuturesBalance, List.foldl_append, List.foldl_cons, List.foldl_nil, hp,
      if_true]
  refine ⟨hiso, ?_, ?_⟩
  · intro data p hp hneg
    rw [hiso data p hp]
    linarith
  · intro wb w s f hwb hw
    have he : wb.isEmpty = false := by simpa [List.isEmpty_iff] using hwb
    have he2 : (wb ++ [w]).isEmpty = false := by simp
    simp only [handler, he, he2, Bool.false_eq_true, if_false]
    rw [List.foldl_append, List.foldl_cons, List.foldl_nil, uniStep_totalUsdt]
    have : ¬(w.activate ∧ 0 < w.balance) := by
      rintro ⟨-, hpos⟩
      exact absurd hw (not_le.mpr hpos)
    rw [if_neg this]

/-- Witness for C8: an isolated position with wallet 5 and unrealized
profit -2 adds 3 to the isolated sum (strictly less than the wallet
alone), and an activated -3 "Spot" entry appended to a non-empty unified
result leaves the grand total unchanged. -/
theorem C8_negative_values_witness :
    (fetchFuturesBalance ⟨0, [⟨"BTCUSDT", IsoFlag.bool true, 5, -2⟩]⟩).isolated =
      (fetchFuturesBalance ⟨0, []⟩).isolated + (5 + -2)
    ∧ (fetchFuturesBalance ⟨0, [⟨"BTCUSDT", IsoFlag.bool true, 5, -2⟩]⟩).isolated <
        (fetchFuturesBalance ⟨0, []⟩).isolated + 5
    ∧ (handler ([⟨"Spot", 1, true⟩] ++ [⟨"Spot", -3, true⟩])
          SettledQ.rejected SettledFut.rejected).totalUsdt =
        (handler [⟨"Spot", 1, true⟩] SettledQ.rejected SettledFut.rejected).totalUsdt :=
  ⟨C8_negative_values.1 ⟨0, []⟩ ⟨"BTCUSDT", IsoFlag.bool true, 5, -2⟩ rfl,
   C8_negative_values.2.1 ⟨0, []⟩ ⟨"BTCUSDT", IsoFlag.bool true, 5, -2⟩ rfl (by norm_num),
   C8_negative_values.2.2 [⟨"Spot", 1, true⟩] ⟨"Spot", -3, true⟩
     SettledQ.rejected SettledFut.rejected (by simp) (by norm_num)⟩
